import Mathlib

/-!
# Verification of the codeval execution engine (executor.js)

A shallow embedding of the engine in `src/executor.js` (the current version of
the file), together with models of the platform primitives it relies on
(JavaScript string methods, `JSON.parse` of a string literal, the specific
regular expressions used by the parsers, `child_process.spawn` outcomes).

External process behaviour is supplied by an `Env` record: each call to
`compileCode` / `runProgram` consumes the outcome at the next index, and the
`JSON.parse` applied to the Java harness output is an abstract partial
function of the environment.  Filesystem effects are recorded as an event
trace.
-/

set_option maxHeartbeats 1000000
set_option maxRecDepth 100000

namespace Codeval

/-! ## JavaScript string primitives -/

/-- JavaScript `\s` character class (the ASCII part plus NBSP and BOM, which
cover every character the engine's inputs can realistically contain). -/
def jsIsSpace (c : Char) : Bool :=
  c == ' ' || c == '\t' || c == '\n' || c == '\x0b' || c == '\x0c' ||
  c == '\r' || c.toNat == 0xa0 || c.toNat == 0xfeff ||
  c.toNat == 0x2028 || c.toNat == 0x2029

/-- `String.prototype.trim`: strip leading and trailing whitespace. -/
def jsTrim (s : String) : String :=
  ((s.data.dropWhile jsIsSpace).reverse.dropWhile jsIsSpace).reverse.asString

/-- Leading index of the first occurrence of `pat` in `l` at or after the
current position, scanning left to right (`String.prototype.indexOf` with a
string needle, on char lists). -/
def firstOccAux (pat : List Char) : List Char → Nat → Option Nat
  | [], _ => if pat.isEmpty then some 0 else none
  | c :: cs, i =>
    if pat.isPrefixOf (c :: cs) then some i
    else firstOccAux pat cs (i + 1)

def firstOcc (pat l : List Char) : Option Nat :=
  if pat.isEmpty then some 0 else firstOccAux pat l 0

/-- `String.prototype.split` with a string separator (the engine only splits
on `"=="` and `"!="`). Mirrors JS: separator assumed non-empty here. -/
def jsSplitLitAux (sep : List Char) : Nat → List Char → List (List Char)
  | 0, l => [l]
  | _ + 1, [] => [[]]
  | fuel + 1, c :: cs =>
    if sep.isPrefixOf (c :: cs) then
      [] :: jsSplitLitAux sep fuel ((c :: cs).drop sep.length)
    else
      match jsSplitLitAux sep fuel cs with
      | [] => [[c]]
      | h :: t => (c :: h) :: t

def jsSplitLit (sep s : String) : List String :=
  (jsSplitLitAux sep.data (s.data.length + 1) s.data).map List.asString

/-- `String.prototype.indexOf` for a single character: first index, `none`
standing for JavaScript's `-1`. -/
def jsIndexOfChar (c : Char) (s : String) : Option Nat :=
  firstOccAux [c] s.data 0

/-- `String.prototype.lastIndexOf` for a single character. -/
def jsLastIndexOfChar (c : Char) : List Char → Option Nat
  | [] => none
  | x :: xs =>
    match jsLastIndexOfChar c xs with
    | some i => some (i + 1)
    | none => if x == c then some 0 else none

/-- `String.prototype.substring`: clamps both arguments to the length and
swaps them when `a > b` (this swap matters in the Java JSON-extraction path
when the output has a `{` but no `}`). -/
def jsSubstring (s : String) (a b : Nat) : String :=
  let n := s.data.length
  let a' := min a n
  let b' := min b n
  let lo := min a' b'
  let hi := max a' b'
  ((s.data.drop lo).take (hi - lo)).asString

/-- JavaScript `x || y` on strings: `y` when `x` is falsy (empty). -/
def jsOrStr (x y : String) : String := if x = "" then y else x

/-- `String.prototype.toLowerCase` (per-char lowering; the inputs here are
ASCII language names). -/
def jsToLower (s : String) : String := (s.data.map Char.toLower).asString

/-! ## `JSON.parse` of a string literal

`executeCode` evaluates `JSON.parse('"' + testCode + '"')`, i.e. it decodes
`testCode` as the body of a JSON string literal.  `none` models the
`SyntaxError` throw.  The model's domain is strings of Unicode scalar values;
`\uXXXX` escapes are accepted for scalar values and as high/low surrogate
pairs (a lone surrogate, which JS would keep as an unpaired UTF-16 unit, is
outside the model and mapped to `none`). -/

def hexVal (c : Char) : Option Nat :=
  if '0' ≤ c ∧ c ≤ '9' then some (c.toNat - '0'.toNat)
  else if 'a' ≤ c ∧ c ≤ 'f' then some (c.toNat - 'a'.toNat + 10)
  else if 'A' ≤ c ∧ c ≤ 'F' then some (c.toNat - 'A'.toNat + 10)
  else none

def hex4 : List Char → Option (Nat × List Char)
  | a :: b :: c :: d :: rest => do
    let va ← hexVal a
    let vb ← hexVal b
    let vc ← hexVal c
    let vd ← hexVal d
    pure (((va * 16 + vb) * 16 + vc) * 16 + vd, rest)
  | _ => none

/-- Is `v` a Unicode scalar value (i.e. representable as a `Char`)? -/
def isScalar (v : Nat) : Bool :=
  decide (v < 0xd800 ∨ 0xe000 ≤ v ∧ v < 0x110000)

def decodeJsonAux : Nat → List Char → Option (List Char)
  | 0, [] => some []
  | 0, _ :: _ => none
  | _ + 1, [] => some []
  | fuel + 1, '"' :: _ => none
  | fuel + 1, '\\' :: rest =>
    match rest with
    | [] => none
    | e :: rest' =>
      match e with
      | '"' => ('"' :: ·) <$> decodeJsonAux fuel rest'
      | '\\' => ('\\' :: ·) <$> decodeJsonAux fuel rest'
      | '/' => ('/' :: ·) <$> decodeJsonAux fuel rest'
      | 'b' => ('\x08' :: ·) <$> decodeJsonAux fuel rest'
      | 'f' => ('\x0c' :: ·) <$> decodeJsonAux fuel rest'
      | 'n' => ('\n' :: ·) <$> decodeJsonAux fuel rest'
      | 'r' => ('\r' :: ·) <$> decodeJsonAux fuel rest'
      | 't' => ('\t' :: ·) <$> decodeJsonAux fuel rest'
      | 'u' =>
        match hex4 rest' with
        | none => none
        | some (v, rest2) =>
          if isScalar v then
            (Char.ofNat v :: ·) <$> decodeJsonAux fuel rest2
          else if v < 0xdc00 then
            -- high surrogate: must be followed by an escaped low surrogate
            match rest2 with
            | '\\' :: 'u' :: rest3 =>
              match hex4 rest3 with
              | none => none
              | some (w, rest4) =>
                if 0xdc00 ≤ w ∧ w < 0xe000 then
                  (Char.ofNat (0x10000 + (v - 0xd800) * 0x400 + (w - 0xdc00)) :: ·)
                    <$> decodeJsonAux fuel rest4
                else none
            | _ => none
          else none
      | _ => none
  | fuel + 1, c :: rest =>
    if c.toNat < 0x20 then none
    else (c :: ·) <$> decodeJsonAux fuel rest

/-- `JSON.parse('"' ++ t ++ '"')`, returning the decoded string or `none` for
a syntax error (notably: any unescaped `"` or control character in `t`, or a
trailing backslash). -/
def jsonStringDecode (t : String) : Option String :=
  (decodeJsonAux t.data.length t.data).map List.asString

/-! ## A small backtracking regex engine

The executor and the test runner use a handful of concrete regular
expressions (no lookaround, no backreferences).  We embed them as ASTs over
this engine, whose backtracking order (leftmost match, greedy/lazy
quantifiers, ordered alternation) mirrors the JavaScript / Java engines on
this fragment. -/

/-- Regex AST: character classes are boolean predicates; quantifier nodes
carry a greediness flag; `group` records a capture. -/
inductive RE where
  | eps : RE
  | cls (p : Char → Bool) : RE
  | seq (a b : RE) : RE
  | alt (a b : RE) : RE
  | star (greedy : Bool) (a : RE) : RE
  | group (idx : Nat) (a : RE) : RE

/-- Captures: `(index, (start, stop))` pairs, most recent first. -/
abbrev Caps := List (Nat × (Nat × Nat))

def capLookup (caps : Caps) (i : Nat) : Option (Nat × Nat) :=
  match caps.find? (fun p => p.1 == i) with
  | some p => some p.2
  | none => none

/-- Continuation-passing backtracking matcher, structurally recursive on a
fuel parameter (so that concrete evaluations reduce).  The fuel bounds the
call depth, not the work: since each call decrements it once, a fuel of
`(size + 2) * (length + 2)` is ample for the patterns in this file (whose
`star` nesting depth is 1, and whose empty-iteration guard makes every
`star` unfolding consume at least one character). -/
def reFirst {A : Type} : Nat → RE → List Char → Nat → Caps →
    (Nat → Caps → Option A) → Option A
  | 0, _, _, _, _, _ => none
  | fuel + 1, re, s, i, caps, k =>
    match re with
    | .eps => k i caps
    | .cls p =>
      match s[i]? with
      | some c => if p c then k (i + 1) caps else none
      | none => none
    | .seq a b =>
      reFirst fuel a s i caps (fun j cs => reFirst fuel b s j cs k)
    | .alt a b =>
      (reFirst fuel a s i caps k).orElse (fun _ => reFirst fuel b s i caps k)
    | .star g a =>
      let more := fun (_ : Unit) =>
        reFirst fuel a s i caps (fun j cs =>
          if j == i then none else reFirst fuel (.star g a) s j cs k)
      if g then (more ()).orElse (fun _ => k i caps)
      else (k i caps).orElse more
    | .group n a =>
      reFirst fuel a s i caps (fun j cs => k j ((n, (i, j)) :: cs))

/-- Structure size of a regex, for the fuel bound. -/
def sizeRE : RE → Nat
  | .eps => 1
  | .cls _ => 1
  | .seq a b => sizeRE a + sizeRE b + 1
  | .alt a b => sizeRE a + sizeRE b + 1
  | .star _ a => sizeRE a + 1
  | .group _ a => sizeRE a + 1

/-- An always-sufficient fuel for `reFirst` on the patterns of this file. -/
def reFuel (re : RE) (s : List Char) : Nat :=
  (sizeRE re + 2) * (s.length + 2)

/-- A match: start, end (exclusive) and captures resolved to substrings
(`none` = the group did not participate, JS `undefined`). -/
structure RMatch where
  mstart : Nat
  mstop : Nat
  caps : Caps
deriving DecidableEq

/-- Group `i` of a match, as the captured substring. -/
def RMatch.grp (m : RMatch) (s : String) (i : Nat) : Option String :=
  (capLookup m.caps i).map (fun p => ((s.data.drop p.1).take (p.2 - p.1)).asString)

/-- Try to match `re` exactly at position `i`. -/
def reMatchAt (re : RE) (s : List Char) (i : Nat) : Option RMatch :=
  reFirst (reFuel re s) re s i [] (fun j cs => some ⟨i, j, cs⟩)

/-- Find the leftmost match at or after position `start` (`RegExp` search);
the first fuel argument is the number of start positions still to try. -/
def reSearchAux (re : RE) (s : List Char) : Nat → Nat → Option RMatch
  | 0, _ => none
  | fuel + 1, start =>
    if start ≤ s.length then
      match reMatchAt re s start with
      | some m => some m
      | none => reSearchAux re s fuel (start + 1)
    else none

def reSearchFrom (re : RE) (s : List Char) (start : Nat) : Option RMatch :=
  reSearchAux re s (s.length + 1 - start) start

/-- `String.prototype.match` with a non-global regex: the first match. -/
def jsMatch (re : RE) (s : String) : Option RMatch :=
  reSearchFrom re s.data 0

/-- `String.prototype.matchAll`: all matches, advancing past each one (and by
one position after an empty match). -/
def jsMatchAllAux (re : RE) (s : List Char) : Nat → Nat → List RMatch
  | 0, _ => []
  | fuel + 1, pos =>
    match reSearchFrom re s pos with
    | none => []
    | some m =>
      m :: jsMatchAllAux re s fuel (if m.mstop == m.mstart then m.mstop + 1 else m.mstop)

def jsMatchAll (re : RE) (s : String) : List RMatch :=
  jsMatchAllAux re s.data (s.data.length + 1) 0

/-- `String.prototype.split` with a (capture-free) regex separator. -/
def jsSplitReAux (re : RE) (s : List Char) : Nat → Nat → List String
  | 0, pos => [((s.drop pos).asString)]
  | fuel + 1, pos =>
    match reSearchFrom re s pos with
    | none => [((s.drop pos).asString)]
    | some m =>
      if m.mstop == m.mstart then [((s.drop pos).asString)]
      else ((s.drop pos).take (m.mstart - pos)).asString ::
        jsSplitReAux re s fuel m.mstop

def jsSplitRe (re : RE) (s : String) : List String :=
  jsSplitReAux re s.data (s.data.length + 1) 0

/-! ### Regex building blocks -/

/-- Literal character. -/
def REch (c : Char) : RE := .cls (fun d => d == c)

/-- Literal string. -/
def RElit (t : String) : RE :=
  t.data.foldr (fun c r => .seq (REch c) r) .eps

/-- `\d` -/
def REdigit : RE := .cls Char.isDigit

/-- `\s` -/
def REspace : RE := .cls jsIsSpace

/-- `\w` -/
def REword : RE := .cls (fun c => c.isAlphanum || c == '_')

/-- `.` (no dot-all flag): anything but a line terminator. -/
def REdot : RE :=
  .cls (fun c => !(c == '\n' || c == '\r' || c.toNat == 0x2028 || c.toNat == 0x2029))

/-- `[\s\S]` -/
def REany : RE := .cls (fun _ => true)

/-- `r+` (greedy). -/
def REplus (r : RE) : RE := .seq r (.star true r)

/-- `r*` (greedy). -/
def REstar (r : RE) : RE := .star true r

/-- `r*?` (lazy). -/
def RElazyStar (r : RE) : RE := .star false r

/-- `r?` (greedy). -/
def REopt (r : RE) : RE := .alt r .eps

/-- `r{n,}` (greedy): `n` copies then `r*`. -/
def REatLeast (n : Nat) (r : RE) : RE :=
  match n with
  | 0 => REstar r
  | n + 1 => .seq r (REatLeast n r)

/-- Concatenation of a list of regexes. -/
def REcat (l : List RE) : RE := l.foldr .seq .eps

/-! ## The concrete regular expressions of the source -/

/-- `/public\s+class\s+(\w+)/` (executor.js, `extractClassName`). -/
def rePublicClass : RE :=
  REcat [RElit "public", REplus REspace, RElit "class", REplus REspace,
         .group 1 (REplus REword)]

/-- `/(\d+) passed, (\d+) failed/` -/
def rePyPassFail : RE :=
  REcat [.group 1 (REplus REdigit), RElit " passed, ",
         .group 2 (REplus REdigit), RElit " failed"]

/-- `/(\d+) passed/` -/
def rePySinglePass : RE :=
  REcat [.group 1 (REplus REdigit), RElit " passed"]

/-- `/(\d+) failed/` -/
def rePySingleFail : RE :=
  REcat [.group 1 (REplus REdigit), RElit " failed"]

/-- `/={10,} FAILURES ={10,}/` -/
def rePyFailSep : RE :=
  REcat [REatLeast 10 (REch '='), RElit " FAILURES ", REatLeast 10 (REch '=')]

/-- `/={10,}/` -/
def reEq10 : RE := REatLeast 10 (REch '=')

/-- The per-failure block pattern of `parsePytestOutput`:
`/_{5,}\s*(.*?)\s*_{5,}[\s\S]*?>\s*assert\s+(.*?)\s*?\nE\s+assert\s+(.*?)\s*?(?:\nE\s+\+\s+where\s+(.*?)\s+=)?/g` -/
def rePyFailBlock : RE :=
  REcat [REatLeast 5 (REch '_'), REstar REspace, .group 1 (RElazyStar REdot),
         REstar REspace, REatLeast 5 (REch '_'), RElazyStar REany,
         REch '>', REstar REspace, RElit "assert", REplus REspace,
         .group 2 (RElazyStar REdot), RElazyStar REspace, REch '\n',
         REch 'E', REplus REspace, RElit "assert", REplus REspace,
         .group 3 (RElazyStar REdot), RElazyStar REspace,
         REopt (REcat [REch '\n', REch 'E', REplus REspace, REch '+',
                       REplus REspace, RElit "where", REplus REspace,
                       .group 4 (RElazyStar REdot), REplus REspace, REch '='])]

/-- `/Running cxxtest tests \((\d+) tests?\)/` -/
def reCxxTotal : RE :=
  REcat [RElit "Running cxxtest tests (", .group 1 (REplus REdigit),
         RElit " test", REopt (REch 's'), REch ')']

/-- `/Failed (\d+) and Skipped \d+ of (\d+) tests/` -/
def reCxxFailed : RE :=
  REcat [RElit "Failed ", .group 1 (REplus REdigit), RElit " and Skipped ",
         REplus REdigit, RElit " of ", .group 2 (REplus REdigit), RElit " tests"]

/-- `/Error: Expected \((.*?)\), found \((.*?)\)/g` -/
def reCxxErr : RE :=
  REcat [RElit "Error: Expected (", .group 1 (RElazyStar REdot),
         RElit "), found (", .group 2 (RElazyStar REdot), REch ')']

/-- TestRunner.java heuristic 1: `expected:\s*<(.*?)>\s*but was:\s*<(.*?)>` -/
def reJunitExpectedWas : RE :=
  REcat [RElit "expected:", REstar REspace, REch '<',
         .group 1 (RElazyStar REdot), REch '>', REstar REspace,
         RElit "but was:", REstar REspace, REch '<',
         .group 2 (RElazyStar REdot), REch '>']

/-- TestRunner.java heuristic 2: `(.*?)\s*[!=]=\s*(.*)` -/
def reJunitEq : RE :=
  REcat [.group 1 (RElazyStar REdot), REstar REspace,
         .cls (fun c => c == '!' || c == '='), REch '=', REstar REspace,
         .group 2 (REstar REdot)]

/-- `parseInt` on a capture known to be a digit run. -/
def parseDigits (s : String) : Nat :=
  s.data.foldl (fun n c => n * 10 + (c.toNat - '0'.toNat)) 0

-- sanity checks on the engine (concrete evaluations)
example :
    (jsMatch rePublicClass "final public  class  Foo9 \x7b").map
      (fun m => m.grp "final public  class  Foo9 \x7b" 1) =
      some (some "Foo9") := by decide

example : jsMatch rePublicClass "class X {}" = none := by decide

example :
    (jsMatch rePyPassFail "== 3 passed, 2 failed in 0.1s ==").map
      (fun m => (m.grp "== 3 passed, 2 failed in 0.1s ==" 1,
                 m.grp "== 3 passed, 2 failed in 0.1s ==" 2)) =
      some (some "3", some "2") := by decide

example :
    (jsMatchAll reCxxErr "Error: Expected (add(1,2) == 3), found (4 != 3)").map
      (fun m => (m.grp "Error: Expected (add(1,2) == 3), found (4 != 3)" 1,
                 m.grp "Error: Expected (add(1,2) == 3), found (4 != 3)" 2)) =
      [(some "add(1,2) == 3", some "4 != 3")] := by decide

example :
    jsSplitRe rePyFailSep "aa=========== FAILURES ===========bb==========cc" =
      ["aa", "bb==========cc"] := by decide

/-! ## The canonical result shape -/

/-- `test_case` is the number `1` in the expected-output path and a string in
every parser-produced detail. -/
inductive TestCaseId where
  | num (n : Int)
  | str (s : String)
deriving DecidableEq

/-- One failure detail.  `expected`, `received` and `rawout` are `Option`s
because the expected-output path stores the raw request field (which is
`undefined` when the request omitted `expectedOutput`); the cpp parser
additionally stores a `stderr` property on its detail objects
(`stderrProp` here, `none` elsewhere). -/
structure FailureDetail where
  test_case : TestCaseId
  expected : Option String
  received : Option String
  error_message : String
  rawout : Option String
  stderrProp : Option String
deriving DecidableEq

/-- What `parsePytestOutput` / `parseCppTestOutput` return. -/
structure TestSummary where
  tests_run : Int
  passed : Int
  failed : Int
  failure_details : List FailureDetail
deriving DecidableEq

/-! ## `parsePytestOutput` (executor.js lines 189–240) -/

/-- The totals part of `parsePytestOutput` (lines 195–211):
`(total_tests, passed_tests, failed_tests)`. -/
def pytestTotals (output : String) : Nat × Nat × Nat :=
  match jsMatch rePyPassFail output with
  | some m =>
    let p := parseDigits ((m.grp output 1).getD "")
    let f := parseDigits ((m.grp output 2).getD "")
    (p + f, p, f)
  | none =>
    let p :=
      match jsMatch rePySinglePass output with
      | some m => parseDigits ((m.grp output 1).getD "")
      | none => 0
    match jsMatch rePySingleFail output with
    | some m =>
      let f := parseDigits ((m.grp output 1).getD "")
      (p + f, p, f)
    | none => (p, p, 0)

/-- The `FAILURES` section (line 213):
`output.split(/={10,} FAILURES ={10,}/)[1]?.split(/={10,}/)[0] || ''`. -/
def pytestFailureBlocks (output : String) : String :=
  match (jsSplitRe rePyFailSep output)[1]? with
  | none => ""
  | some seg => ((jsSplitRe reEq10 seg).headD "")

/-- The per-failure matches (line 215). -/
def pytestFailureMatches (output : String) : List RMatch :=
  jsMatchAll rePyFailBlock (pytestFailureBlocks output)

/-- One pytest failure detail (lines 219–231). -/
def pytestDetail (fb : String) (stdoutS stderrS : String)
    (im : Nat × RMatch) : FailureDetail :=
  let (index, m) := im
  let test_case := jsOrStr (jsTrim ((m.grp fb 1).getD ""))
      ("Test " ++ toString (index + 1))
  let assertionLine := jsTrim ((m.grp fb 2).getD "")
  let failedExpr := jsTrim ((m.grp fb 3).getD "")
  let evaluated := ((m.grp fb 4).map jsTrim).getD ""
  { test_case := .str test_case
    expected := some (((jsSplitLit "==" failedExpr)[1]?.map jsTrim).getD "")
    received := some (jsOrStr evaluated
      (jsTrim ((jsSplitLit "==" failedExpr).headD "")))
    error_message := "Assertion failed: " ++ assertionLine
    rawout := some (stdoutS ++ "\n" ++ stderrS)
    stderrProp := none }

def parsePytestOutput (output : String) (stdoutS : String := "")
    (stderrS : String := "") : TestSummary :=
  let (total_tests, passed_tests, failed_tests) := pytestTotals output
  let fb := pytestFailureBlocks output
  let failures := (pytestFailureMatches output).enum.map
    (pytestDetail fb stdoutS stderrS)
  { tests_run := total_tests
    passed := passed_tests
    failed := failed_tests
    failure_details := failures }

/-! ## `parseCppTestOutput` (executor.js lines 242–286) -/

/-- The totals part (lines 249–260): `(total_tests, failed_tests)` after both
regexes have been consulted. -/
def cppTotals (output : String) : Nat × Nat :=
  let total :=
    match jsMatch reCxxTotal output with
    | some m => parseDigits ((m.grp output 1).getD "")
    | none => 0
  match jsMatch reCxxFailed output with
  | some m =>
    (parseDigits ((m.grp output 2).getD ""),
     parseDigits ((m.grp output 1).getD ""))
  | none => (total, 0)

/-- The per-failure matches (line 265). -/
def cppFailureMatches (output : String) : List RMatch :=
  jsMatchAll reCxxErr output

/-- One cpp failure detail (lines 266–278). -/
def cppDetail (output : String) (stdoutS stderrS : String)
    (im : Nat × RMatch) : FailureDetail :=
  let (index, m) := im
  let lhs := (m.grp output 1).getD ""
  let rhs := (m.grp output 2).getD ""
  let expectedExpr := jsOrStr (((jsSplitLit "==" lhs)[1]?.map jsTrim).getD "")
      (jsTrim lhs)
  let receivedValue := jsOrStr (((jsSplitLit "!=" rhs).headD "" |> jsTrim))
      (jsTrim rhs)
  { test_case := .str ("Test " ++ toString (index + 1))
    expected := some expectedExpr
    received := some receivedValue
    error_message := "AssertionError: Output did not match expected result"
    rawout := some (stdoutS ++ "\n" ++ stderrS)
    stderrProp := some stderrS }

def parseCppTestOutput (output : String) (stdoutS : String := "")
    (stderrS : String := "") : TestSummary :=
  let (total_tests, failed_tests) := cppTotals output
  let passed_tests : Int := (total_tests : Int) - (failed_tests : Int)
  let failures := (cppFailureMatches output).enum.map
    (cppDetail output stdoutS stderrS)
  { tests_run := total_tests
    passed := passed_tests
    failed := failed_tests
    failure_details := failures }

-- sanity: a realistic cxxtest transcript
example :
    parseCppTestOutput
      "Running cxxtest tests (2 tests).F\n/t/test_program.h:7: Error: Expected (add(-1, 1) == 1), found (0 != 1)\nFailed 1 and Skipped 0 of 2 tests\nSuccess rate: 50%\n" "so" "se" =
    { tests_run := 2, passed := 1, failed := 1,
      failure_details := [⟨TestCaseId.str "Test 1", some "1", some "0",
        "AssertionError: Output did not match expected result",
        some "so\nse", some "se"⟩] } := by decide

-- sanity: unrecognized text gives all-zero counts and no details
example : parseCppTestOutput "[object Object]" "" "" =
    { tests_run := 0, passed := 0, failed := 0, failure_details := [] } := by
  decide

example : parsePytestOutput "garbage with no totals" "" "" =
    { tests_run := 0, passed := 0, failed := 0, failure_details := [] } := by
  decide

/-- The canonical response record assembled by `executeCode` (its `response`
object), with JavaScript numbers as `Int`. -/
structure Response where
  state : String
  tests_run : Int
  passed : Int
  failed : Int
  failure_details : List FailureDetail
  compilation_error : String
  runtime_error : String
  execution_time_exceeded : Bool
  memory_exceeded : Bool
deriving DecidableEq

/-! ## Process outcomes and the environment -/

/-- The fate of one `spawn` in `runProgram`: the `close` event with an exit
code and the accumulated streams, the 3000 ms timer firing first, or the
`error` event (spawn failure). -/
inductive RunOutcome where
  | close (code : Nat) (stdout stderr : String)
  | timeout
  | spawnErr (msg : String)
deriving DecidableEq

/-- The fate of one `spawn` in `compileCode`. -/
inductive CompileOutcome where
  | close (code : Nat) (stderr : String)
  | spawnErr (msg : String)
deriving DecidableEq

/-- A rejected `runProgram` promise: an `Error` whose `stdout` / `stderr`
properties are set only in the nonzero-exit case. -/
structure RunError where
  message : String
  stdoutProp : Option String
  stderrProp : Option String
deriving DecidableEq

/-- `runProgram` (executor.js lines 539–593) as a function of the spawn
outcome. -/
def runProgram (o : RunOutcome) : Except RunError (String × String) :=
  match o with
  | .close code stdout stderr =>
    if code = 0 then .ok (stdout, stderr)
    else .error ⟨"Execution failed with code " ++ toString code,
                 some stdout, some stderr⟩
  | .timeout => .error ⟨"Execution timed out", none, none⟩
  | .spawnErr m => .error ⟨m, none, none⟩

/-- `compileCode` (executor.js lines 504–529) as a function of the spawn
outcome; the error value is the rejection's `message`. -/
def compileCode (o : CompileOutcome) : Except String Unit :=
  match o with
  | .close code stderr =>
    if code = 0 then .ok ()
    else .error ("Compilation failed: " ++ stderr)
  | .spawnErr m => .error m

/-- What the Java branch's `JSON.parse` can yield: an object with the
harness's fields (the model's domain; other JSON shapes do not occur for
harness output).  `Option Bool` mirrors possibly-absent boolean fields read
through `|| false`. -/
structure JavaTestResults where
  state : String
  tests_run : Int
  passed : Int
  failed : Int
  failure_details : List FailureDetail
  execution_time_exceeded : Option Bool
  memory_exceeded : Option Bool
deriving DecidableEq

/-- Filesystem / process effects, in program order. -/
inductive Event where
  | mkdir (dir : String)
  | writeFile (path content : String)
  | copyFile (src dst : String)
  | spawnCompile (cmd : String) (args : List String)
  | spawnRun (cmd : String) (args : List String) (stdin : String)
  | removeDir (dir : String)
deriving DecidableEq

def Event.isMkdir : Event → Bool
  | .mkdir _ => true
  | _ => false

def Event.isRemoveDir : Event → Bool
  | .removeDir _ => true
  | _ => false

def Event.isSpawnCompile : Event → Bool
  | .spawnCompile _ _ => true
  | _ => false

def Event.isSpawnRun : Event → Bool
  | .spawnRun _ _ _ => true
  | _ => false

/-- The per-request environment: the workspace path chosen by
`createUniqueDirectory`, the outcome of the n-th compile / run spawn, the
behaviour of `JSON.parse` on the extracted Java harness output, the platform
error messages for the two untyped throws, and whether `fs.rm` succeeds. -/
structure Env where
  dir : String
  compileOutcome : Nat → CompileOutcome
  runOutcome : Nat → RunOutcome
  javaJson : String → Option JavaTestResults
  nullConfigMsg : String
  jsonSyntaxErrMsg : String → String
  rmOk : Bool

/-! ## The executor (executor.js lines 12–495) -/

/-- `__dirname` of executor.js (the Dockerfile's WORKDIR). -/
def appDir : String := "/usr/src/app"

def libJunit : String := appDir ++ "/lib/junit-4.13.2.jar"

def libHamcrest : String := appDir ++ "/lib/hamcrest-core-1.3.jar"

/-- `extractClassName` (lines 12–18): first match of
`/public\s+class\s+(\w+)/`, else a throw. -/
def extractClassName (javaCode : String) : Except String String :=
  match jsMatch rePublicClass javaCode with
  | some m => .ok ((m.grp javaCode 1).getD "")
  | none => .error "Invalid Java code: public class not found."

structure ExecutionConfig where
  extension : String
  compileCommand : String
  runCommand : String
  runArgs : List String
  className : String
deriving DecidableEq

/-- `configureExecution` (lines 38–77): `ok none` models the `null` return
for an unsupported language; `error` models the rethrown
`extractClassName` throw. -/
def configureExecution (language code uniqueDir : String) :
    Except String (Option ExecutionConfig) :=
  if jsToLower language = "python" then
    .ok (some ⟨".py", "", "python3", [uniqueDir ++ "/program.py"], ""⟩)
  else if jsToLower language = "cpp" then
    .ok (some ⟨".cpp", "g++", uniqueDir ++ "/program", [], ""⟩)
  else if jsToLower language = "java" then
    match extractClassName code with
    | .ok cls => .ok (some ⟨".java", "javac", "java", ["-cp", uniqueDir, cls], cls⟩)
    | .error m => .error m
  else .ok none

/-- The file name chosen by `writeCodeToFile` (lines 87–92): the class name
when it is truthy (non-empty), else `program`. -/
def writeCodeFileName (cfg : ExecutionConfig) : String :=
  if cfg.className = "" then "program" ++ cfg.extension
  else cfg.className ++ cfg.extension

/-- `compilationHandler` (lines 99–115): the plain-compile step, consuming
compile outcome 0. -/
def compilationHandler (env : Env) (cfg : ExecutionConfig) (uniqueDir : String) :
    Except String Unit × List Event :=
  if cfg.compileCommand = "g++" then
    (compileCode (env.compileOutcome 0),
     [.spawnCompile "g++" ["-o", uniqueDir ++ "/program", uniqueDir ++ "/program.cpp"]])
  else if cfg.compileCommand = "javac" then
    (compileCode (env.compileOutcome 0),
     [.spawnCompile "javac" ["-d", uniqueDir, uniqueDir ++ "/" ++ cfg.className ++ ".java"]])
  else (.ok (), [])

/-- `handleTestSetup` (lines 139–182), including `generateCppTestRunner`
(lines 121–130); consumes compile outcomes 0 (and 1 for cpp). -/
def handleTestSetup (env : Env) (language uniqueDir className testCode : String) :
    Except String Unit × List Event :=
  if jsToLower language = "python" then
    (.ok (), [.writeFile (uniqueDir ++ "/test_program.py") testCode])
  else if jsToLower language = "cpp" then
    let evW : Event := .writeFile (uniqueDir ++ "/test_program.h") testCode
    let evG : Event := .spawnCompile "cxxtestgen"
      ["--error-printer", "-o", uniqueDir ++ "/runner.cpp", uniqueDir ++ "/test_program.h"]
    match compileCode (env.compileOutcome 0) with
    | .error m => (.error m, [evW, evG])
    | .ok _ =>
      let evG2 : Event := .spawnCompile "g++"
        ["-o", uniqueDir ++ "/runner", uniqueDir ++ "/runner.cpp", uniqueDir ++ "/program.cpp"]
      match compileCode (env.compileOutcome 1) with
      | .error m => (.error m, [evW, evG, evG2])
      | .ok _ => (.ok (), [evW, evG, evG2])
  else if jsToLower language = "java" then
    let evW : Event := .writeFile (uniqueDir ++ "/" ++ className ++ "Test.java") testCode
    let evC : Event := .copyFile (appDir ++ "/TestRunner.java") (uniqueDir ++ "/TestRunner.java")
    let evJ : Event := .spawnCompile "javac"
      ["-cp", libJunit ++ ":" ++ libHamcrest ++ ":" ++ uniqueDir,
       uniqueDir ++ "/" ++ className ++ ".java",
       uniqueDir ++ "/" ++ className ++ "Test.java",
       uniqueDir ++ "/TestRunner.java"]
    match compileCode (env.compileOutcome 0) with
    | .error m => (.error ("Compilation failed: " ++ m), [evW, evC, evJ])
    | .ok _ => (.ok (), [evW, evC, evJ])
  else (.ok (), [])

/-- The test-mode run command (lines 349–373); for a language outside the
three cases the configured command is kept. -/
def testRunCommand (language uniqueDir : String) (cfg : ExecutionConfig) :
    String × List String :=
  if jsToLower language = "python" then
    ("pytest", [uniqueDir ++ "/test_program.py"])
  else if jsToLower language = "cpp" then
    (uniqueDir ++ "/runner", [])
  else if jsToLower language = "java" then
    ("java", ["-cp", uniqueDir ++ ":" ++ libJunit ++ ":" ++ libHamcrest, "TestRunner"])
  else (cfg.runCommand, cfg.runArgs)

/-- The value flowing into `parseCppTestOutput`'s first argument in the cpp
branch: either the `{stdout, stderr}` record or the caught `Error`. -/
inductive ProcOutput where
  | res (stdout stderr : String)
  | err (e : RunError)
deriving DecidableEq

/-- `Error.prototype.toString`. -/
def errToString (e : RunError) : String :=
  if e.message = "" then "Error" else "Error: " ++ e.message

/-- `output.stdout || output` coerced to a string (`{stdout, stderr}` records
stringify to `"[object Object]"`). -/
def cppEffText : ProcOutput → String
  | .res so _ => jsOrStr so "[object Object]"
  | .err e =>
    match e.stdoutProp with
    | some so => jsOrStr so (errToString e)
    | none => errToString e

/-- `output.stdout` as passed to a defaulted string parameter
(`undefined` selects the default `''`). -/
def outStdout : ProcOutput → String
  | .res so _ => so
  | .err e => e.stdoutProp.getD ""

def outStderr : ProcOutput → String
  | .res _ se => se
  | .err e => e.stderrProp.getD ""

/-- The initial `response` object (lines 302–312).  Note it has **no**
`stdout` field. -/
def initResponse : Response :=
  ⟨"execution_error", 0, 0, 0, [], "", "", false, false⟩

/-- What the outer `catch` (lines 486–489) produces: every field of the
current response other than `state` and `runtime_error` is still at its
initial value at both throw sites, so the caught result is determined by the
message alone. -/
def execErrorResponse (m : String) : Response :=
  { initResponse with state := "execution_error", runtime_error := m }

/-- The body of `executeCode`'s `try` block (lines 314–489), i.e. everything
between directory creation and the `finally`.  Throws that reach the outer
`catch` are already folded into `execErrorResponse` (see its docstring).
Returns the response together with the body's event trace. -/
def executeBody (env : Env) (cfgOpt : Option ExecutionConfig)
    (language code stdin : String) (expectedOutput : Option String)
    (runTests : Bool) (testCode : String) : Response × List Event :=
  match cfgOpt with
  | none =>
    -- `executionConfig.extension` on `null` throws before any write
    (execErrorResponse env.nullConfigMsg, [])
  | some cfg =>
    let dir := env.dir
    let ev0 : List Event := [.writeFile (dir ++ "/" ++ writeCodeFileName cfg) code]
    -- `if (!runTests) { compilationHandler ... }` (lines 325–333)
    let compileStep : Except String Unit × List Event :=
      if runTests then (.ok (), []) else compilationHandler env cfg dir
    match compileStep.1 with
    | .error m =>
      ({ initResponse with state := "compile_error", compilation_error := m },
       ev0 ++ compileStep.2)
    | .ok _ =>
      -- `if (runTests && testCode) { JSON.parse + handleTestSetup }` (336–345)
      let setup : Except String Unit × List Event :=
        if runTests ∧ testCode ≠ "" then
          match jsonStringDecode testCode with
          | none => (.error (env.jsonSyntaxErrMsg testCode), [])
          | some decoded => handleTestSetup env language dir cfg.className decoded
        else (.ok (), [])
      match setup.1 with
      | .error m =>
        ({ initResponse with state := "compile_error", compilation_error := m },
         ev0 ++ compileStep.2 ++ setup.2)
      | .ok _ =>
        let evPre := ev0 ++ compileStep.2 ++ setup.2
        if runTests ∧ testCode ≠ "" then
          -- test-mode run (lines 349–386)
          let ca := testRunCommand language dir cfg
          let evR1 : Event := .spawnRun ca.1 ca.2 stdin
          let ro1 :=
            match runProgram (env.runOutcome 0) with
            | .ok (so, se) => (initResponse, so, se)
            | .error e =>
              ({ initResponse with state := "failed", runtime_error := e.message },
               e.stdoutProp.getD "", e.stderrProp.getD "")
          let resp1 := ro1.1
          let so1 := ro1.2.1
          let se1 := ro1.2.2
          -- result interpretation (lines 405–468)
          if jsToLower language = "python" then
            let tr := parsePytestOutput so1 so1 se1
            ({ resp1 with
                tests_run := tr.tests_run
                passed := tr.passed
                failed := tr.failed
                failure_details := tr.failure_details
                state := if tr.failed = 0 then "passed" else "failed" },
             evPre ++ [evR1])
          else if jsToLower language = "cpp" then
            -- the runner is spawned a second time (lines 416–426)
            let evR2 : Event := .spawnRun (dir ++ "/runner") [] stdin
            let ro2 :=
              match runProgram (env.runOutcome 1) with
              | .ok (so2, se2) => (resp1, ProcOutput.res so2 se2)
              | .error e =>
                ({ resp1 with state := "failed", runtime_error := e.message },
                 ProcOutput.err e)
            let resp2 := ro2.1
            let output2 := ro2.2
            let tr := parseCppTestOutput (cppEffText output2) (outStdout output2)
              (outStderr output2)
            ({ resp2 with
                tests_run := tr.tests_run
                passed := tr.passed
                failed := tr.failed
                failure_details := tr.failure_details
                state := if tr.failed = 0 then "passed" else "failed" },
             evPre ++ [evR1, evR2])
          else
            -- Java JSON extraction and merge (lines 438–468)
            let stdoutEff := jsOrStr so1 "[object Object]"
            match jsIndexOfChar '{' stdoutEff with
            | none =>
              (execErrorResponse "Invalid JSON structure in Java test stdout",
               evPre ++ [evR1])
            | some jsonStart =>
              let jsonEnd :=
                match jsLastIndexOfChar '}' stdoutEff.data with
                | some i => i + 1
                | none => 0
              let jsonString := jsSubstring stdoutEff jsonStart jsonEnd
              match env.javaJson jsonString with
              | none =>
                (execErrorResponse "Failed to parse JSON from Java test output",
                 evPre ++ [evR1])
              | some tr =>
                ({ state := tr.state
                   tests_run := tr.tests_run
                   passed := tr.passed
                   failed := tr.failed
                   failure_details := tr.failure_details
                   compilation_error := jsOrStr resp1.compilation_error ""
                   runtime_error := jsOrStr resp1.runtime_error ""
                   execution_time_exceeded := tr.execution_time_exceeded.getD false
                   memory_exceeded := tr.memory_exceeded.getD false },
                 evPre ++ [evR1])
        else
          -- plain run (lines 388–402) and output comparison (469–485)
          let evR : Event := .spawnRun cfg.runCommand cfg.runArgs stdin
          match runProgram (env.runOutcome 0) with
          | .error e =>
            ((if jsToLower language = "python" then
                { initResponse with state := "failed", runtime_error := e.message }
              else
                { initResponse with state := "runtime_error", runtime_error := e.message }),
             evPre ++ [evR])
          | .ok (so, se) =>
            -- `response.passed = response.stdout === expectedOutput ? 1 : 0`;
            -- `response.stdout` is never assigned, so this compares
            -- `undefined` with the request's `expectedOutput`.
            let passedN : Int := if expectedOutput.isNone then 1 else 0
            let failedN : Int := if passedN = 0 then 1 else 0
            ({ initResponse with
                tests_run := 1
                passed := passedN
                failed := failedN
                state := if passedN = 1 then "passed" else "failed"
                failure_details :=
                  if failedN ≠ 0 then
                    [⟨.num 1, expectedOutput, some so,
                      "Output did not match expected output", some (so ++ se), none⟩]
                  else [] },
             evPre ++ [evR])

/-- `executeCode` (lines 298–495).  `Except.error` is the promise rejecting:
this happens exactly when `configureExecution` throws, which is *before* the
`try`/`finally`, so that path has no cleanup event. -/
def executeCode (env : Env) (language code stdin : String)
    (expectedOutput : Option String) (runTests : Bool) (testCode : String) :
    Except String Response × List Event :=
  match configureExecution language code env.dir with
  | .error m => (.error m, [Event.mkdir env.dir])
  | .ok cfgOpt =>
    let be := executeBody env cfgOpt language code stdin expectedOutput runTests testCode
    (.ok be.1, Event.mkdir env.dir :: (be.2 ++ [Event.removeDir env.dir]))

/-! ## Concrete environments for witnesses -/

deriving instance DecidableEq for Except

/-- A benign baseline environment: every spawn exits 0 with empty streams,
Java JSON never parses, removal succeeds. -/
def env0 : Env :=
  ⟨"/usr/src/app/temp/u1",
   fun _ => .close 0 "",
   fun _ => .close 0 "" "",
   fun _ => none,
   "Cannot read properties of null (reading 'extension')",
   fun _ => "Unexpected token in JSON at position 0",
   true⟩

/-- Every spawned run exits 0 printing `"5\n"`. -/
def envEcho : Env :=
  { env0 with runOutcome := fun _ => RunOutcome.close 0 "5\n" "" }

/-- Every spawned run hits the 3000 ms deadline. -/
def envTimeout : Env :=
  { env0 with runOutcome := fun _ => RunOutcome.timeout }

/-- An environment in which the second spawned run exits nonzero. -/
def envCppSecondFails : Env :=
  { env0 with runOutcome := fun n =>
      if n = 0 then RunOutcome.close 0 "ok" "" else RunOutcome.close 1 "x" "e" }

/-! ## Event-trace lemmas -/

/-- Not a workspace-lifecycle event. -/
def noWsEvent (e : Event) : Bool := !e.isMkdir && !e.isRemoveDir

theorem compilationHandler_noWs (env : Env) (cfg : ExecutionConfig) (dir : String) :
    ((compilationHandler env cfg dir).2).all noWsEvent = true := by
  unfold compilationHandler
  split <;> try split
  all_goals simp [noWsEvent, Event.isMkdir, Event.isRemoveDir]

theorem handleTestSetup_noWs (env : Env) (language dir className testCode : String) :
    ((handleTestSetup env language dir className testCode).2).all noWsEvent = true := by
  unfold handleTestSetup
  repeat' split
  all_goals simp [noWsEvent, Event.isMkdir, Event.isRemoveDir]


theorem executeBody_noWs (env : Env) (cfgOpt : Option ExecutionConfig)
    (language code stdin : String) (expectedOutput : Option String)
    (runTests : Bool) (testCode : String) :
    ((executeBody env cfgOpt language code stdin expectedOutput runTests
      testCode).2).all noWsEvent = true := by
  unfold executeBody
  cases runTests <;> cases cfgOpt <;>
    simp only [Bool.false_eq_true, if_true, if_false, false_and, true_and,
      List.all_nil]
  all_goals repeat' split
  all_goals
    simp_all [noWsEvent, Event.isMkdir, Event.isRemoveDir, List.all_append,
      compilationHandler_noWs, handleTestSetup_noWs]

/-- If the Java harness JSON itself never pairs `state = "passed"` with a
nonzero `failed` (true of the JSON the bundled TestRunner emits), then a
response whose state is `passed` has `failed = 0` and an empty
`compilation_error`. -/
theorem executeBody_passed (env : Env) (cfgOpt : Option ExecutionConfig)
    (language code stdin : String) (expectedOutput : Option String)
    (runTests : Bool) (testCode : String)
    (hJ : ∀ s tr, env.javaJson s = some tr → tr.state = "passed" → tr.failed = 0) :
    ∀ r, (executeBody env cfgOpt language code stdin expectedOutput runTests
      testCode).1 = r → r.state = "passed" →
      r.failed = 0 ∧ r.compilation_error = "" := by
  unfold executeBody
  cases runTests <;> cases cfgOpt <;>
    simp only [Bool.false_eq_true, if_true, if_false, false_and, true_and]
  all_goals repeat' split
  all_goals intro r hr hst
  all_goals subst hr
  all_goals simp_all [execErrorResponse, initResponse, jsOrStr]
  all_goals
    first
    | omega
    | (rename_i htr _ _; exact hJ _ _ htr (by assumption))
    | (rename_i htr _; exact hJ _ _ htr (by assumption))
    | (rename_i htr; exact hJ _ _ htr (by assumption))

/-! ## Lemmas about the Java JSON extraction -/

theorem firstOccAux_single (c : Char) (pre rest : List Char) (i : Nat)
    (h : c ∉ pre) :
    firstOccAux [c] (pre ++ c :: rest) i = some (pre.length + i) := by
  induction pre generalizing i with
  | nil => simp [firstOccAux, List.isPrefixOf]
  | cons x xs ih =>
    rw [List.mem_cons] at h
    push_neg at h
    have hx : ¬ (c == x) = true := by
      simp
      exact h.1
    simp only [List.cons_append, firstOccAux, List.append_eq]
    rw [if_neg (by simp [List.isPrefixOf, hx]), ih _ h.2]
    simp
    omega

theorem jsLastIndexOfChar_append (c : Char) (l m : List Char) :
    jsLastIndexOfChar c (l ++ m) =
      match jsLastIndexOfChar c m with
      | some i => some (l.length + i)
      | none => jsLastIndexOfChar c l := by
  induction l with
  | nil => cases h : jsLastIndexOfChar c m <;> simp [h, jsLastIndexOfChar]
  | cons x xs ih =>
    have e1 : jsLastIndexOfChar c (x :: (xs ++ m)) =
        match jsLastIndexOfChar c (xs ++ m) with
        | some j => some (j + 1)
        | none => if x == c then some 0 else none := rfl
    have e2 : jsLastIndexOfChar c (x :: xs) =
        match jsLastIndexOfChar c xs with
        | some j => some (j + 1)
        | none => if x == c then some 0 else none := rfl
    rw [List.cons_append, e1, ih]
    cases h : jsLastIndexOfChar c m with
    | some i => simp; omega
    | none => rw [← e2]

theorem jsLastIndexOfChar_notMem (c : Char) (l : List Char) (h : c ∉ l) :
    jsLastIndexOfChar c l = none := by
  induction l with
  | nil => rfl
  | cons x xs ih =>
    rw [List.mem_cons] at h
    push_neg at h
    have e2 : jsLastIndexOfChar c (x :: xs) =
        match jsLastIndexOfChar c xs with
        | some j => some (j + 1)
        | none => if x == c then some 0 else none := rfl
    rw [e2, ih h.2]
    simp
    intro e
    exact absurd e.symm h.1

/-- First-`{` / last-`}` extraction recovers a brace-delimited document from
surrounding noise that adds no `{` before it and no `}` after it. -/
theorem javaExtract (pre mid post : String)
    (h1 : '{' ∉ pre.data) (h2 : '}' ∉ post.data) :
    jsIndexOfChar '{' (pre ++ ("\x7b" ++ mid ++ "\x7d") ++ post) = some pre.data.length ∧
    jsLastIndexOfChar '}' (pre ++ ("\x7b" ++ mid ++ "\x7d") ++ post).data =
      some (pre.data.length + mid.data.length + 1) ∧
    jsSubstring (pre ++ ("\x7b" ++ mid ++ "\x7d") ++ post) pre.data.length
      (pre.data.length + mid.data.length + 2) = "\x7b" ++ mid ++ "\x7d" := by
  have hdata : (pre ++ ("\x7b" ++ mid ++ "\x7d") ++ post).data =
      pre.data ++ (('{' :: mid.data ++ ['}']) ++ post.data) := by
    simp [String.data_append]
  refine ⟨?_, ?_, ?_⟩
  · rw [jsIndexOfChar, hdata]
    have : pre.data ++ ('{' :: mid.data ++ ['}']) ++ post.data =
        pre.data ++ '{' :: (mid.data ++ ['}'] ++ post.data) := by simp
    rw [List.append_assoc] at this ⊢
    simp only [List.cons_append, List.append_assoc] at *
    rw [firstOccAux_single '{' pre.data _ 0 h1]
    simp
  · rw [hdata]
    have hre : pre.data ++ (('{' :: mid.data ++ ['}']) ++ post.data) =
        ((pre.data ++ '{' :: mid.data) ++ ['}']) ++ post.data := by simp
    rw [hre, jsLastIndexOfChar_append, jsLastIndexOfChar_notMem '}' post.data h2,
      jsLastIndexOfChar_append]
    have : jsLastIndexOfChar '}' ['}'] = some 0 := rfl
    rw [this]
    simp
    omega
  · rw [jsSubstring, hdata]
    have hlen : (pre.data ++ (('{' :: mid.data ++ ['}']) ++ post.data)).length =
        pre.data.length + (mid.data.length + 2) + post.data.length := by
      simp
      omega
    set n := (pre.data ++ (('{' :: mid.data ++ ['}']) ++ post.data)).length with hn
    have ha : min pre.data.length n = pre.data.length := by omega
    have hb : min (pre.data.length + mid.data.length + 2) n =
        pre.data.length + mid.data.length + 2 := by omega
    rw [ha, hb]
    have hlo : min pre.data.length (pre.data.length + mid.data.length + 2) =
        pre.data.length := by omega
    have hhi : max pre.data.length (pre.data.length + mid.data.length + 2) =
        pre.data.length + mid.data.length + 2 := by omega
    rw [hlo, hhi]
    rw [List.drop_left]
    have : pre.data.length + mid.data.length + 2 - pre.data.length =
        ('{' :: mid.data ++ ['}']).length := by simp; omega
    rw [this, List.take_left]
    have : ('{' :: mid.data ++ ['}']) = ("\x7b" ++ mid ++ "\x7d").data := by
      simp [String.data_append]
    rw [this]
    rfl

/-! ## The TestRunner's JSON document (src/TestRunner.java lines 29–73) -/

/-- `java.lang.String.trim`: strips chars `≤ U+0020` at both ends. -/
def javaTrim (s : String) : String :=
  ((s.data.dropWhile (fun c => c.toNat ≤ 0x20)).reverse.dropWhile
    (fun c => c.toNat ≤ 0x20)).reverse.asString

/-- TestRunner's `expected` / `received` heuristics (lines 46–58):
`Matcher.find` is leftmost search, like `jsMatch`. -/
def junitExpectedReceived (message : String) : String × String :=
  match jsMatch reJunitExpectedWas message with
  | some m => ((m.grp message 1).getD "", (m.grp message 2).getD "")
  | none =>
    match jsMatch reJunitEq message with
    | some m => (javaTrim ((m.grp message 2).getD ""),
                 javaTrim ((m.grp message 1).getD ""))
    | none => ("", "")

/-- `.replace("\"", "\\\"")` -/
def escapeQuotes (s : String) : String :=
  (s.data.flatMap (fun c => if c = '"' then ['\\', '"'] else [c])).asString

/-- `.replace("\n", "\\n")` -/
def escapeNewlines (s : String) : String :=
  (s.data.flatMap (fun c => if c = '\n' then ['\\', 'n'] else [c])).asString

/-- One JUnit failure as seen by the TestRunner. -/
structure JUnitFailure where
  testHeader : String
  message : String
deriving DecidableEq

/-- One entry of `failure_details` (lines 60–67); `rawout` is the captured
`testOut ++ testErr`, the same for every entry. -/
def testRunnerFailureEntry (rawout : String) (f : JUnitFailure) : String :=
  let er := junitExpectedReceived f.message
  "\x7b\"test_case\": \"" ++ f.testHeader ++ "\"," ++
  "\"expected\": \"" ++ escapeQuotes er.1 ++ "\"," ++
  "\"received\": \"" ++ escapeQuotes er.2 ++ "\"," ++
  "\"error_message\": \"" ++ escapeQuotes f.message ++ "\"," ++
  "\"rawout\": \"" ++ escapeNewlines (escapeQuotes rawout) ++ "\"\x7d"

/-- Everything between the opening `{` and the closing `}`.  (The source
appends `"{"` first and `"]}"` last; regrouping the concatenation does not
change the string.) -/
def testRunnerJsonBody (runCount : Nat) (rawout : String)
    (failures : List JUnitFailure) : String :=
  "\"state\": \"" ++ (if failures.length = 0 then "passed" else "failed") ++
  "\"," ++
  "\"tests_run\": " ++ toString runCount ++ "," ++
  "\"passed\": " ++ toString ((runCount : Int) - failures.length) ++ "," ++
  "\"failed\": " ++ toString failures.length ++ "," ++
  "\"failure_details\": [" ++
  String.intercalate "," (failures.map (testRunnerFailureEntry rawout)) ++ "]"

/-- The single line the TestRunner prints (lines 30–73). -/
def testRunnerJson (runCount : Nat) (rawout : String)
    (failures : List JUnitFailure) : String :=
  "\x7b" ++ testRunnerJsonBody runCount rawout failures ++ "\x7d"

theorem configureExecution_java (language code dir cls : String)
    (hL : jsToLower language = "java") (hX : extractClassName code = .ok cls) :
    configureExecution language code dir =
      .ok (some ⟨".java", "javac", "java", ["-cp", dir, cls], cls⟩) := by
  unfold configureExecution
  rw [hL]
  simp [String.reduceEq, hX]

/-- The Java test pipeline, from a successful harness run whose stdout embeds
a brace-delimited document in noise: extraction recovers the document and the
response is the parsed JSON merged over an otherwise-clean response, or
`execution_error` if the JSON does not parse. -/
theorem executeBody_java (env : Env) (cfg : ExecutionConfig)
    (language code stdin : String) (eo : Option String)
    (testCode d pre mid post se : String)
    (hL : jsToLower language = "java")
    (hT : testCode ≠ "")
    (hD : jsonStringDecode testCode = some d)
    (hC : compileCode (env.compileOutcome 0) = .ok ())
    (hR : env.runOutcome 0 = .close 0 (pre ++ ("\x7b" ++ mid ++ "\x7d") ++ post) se)
    (h1 : '{' ∉ pre.data) (h2 : '}' ∉ post.data) :
    (executeBody env (some cfg) language code stdin eo true testCode).1 =
      match env.javaJson ("\x7b" ++ mid ++ "\x7d") with
      | some tr =>
        { state := tr.state
          tests_run := tr.tests_run
          passed := tr.passed
          failed := tr.failed
          failure_details := tr.failure_details
          compilation_error := ""
          runtime_error := ""
          execution_time_exceeded := tr.execution_time_exceeded.getD false
          memory_exceeded := tr.memory_exceeded.getD false }
      | none => execErrorResponse "Failed to parse JSON from Java test output" := by
  have hne : pre ++ ("\x7b" ++ mid ++ "\x7d") ++ post ≠ "" := by
    intro h
    have := congrArg String.data h
    simp [String.data_append] at this
  have hE := javaExtract pre mid post h1 h2
  unfold executeBody
  simp only [handleTestSetup, testRunCommand]
  rw [hL]
  simp only [String.reduceEq, if_false, if_true, reduceIte, hT, hD, hR, hC,
    ne_eq, not_false_iff, and_true, true_and, if_pos, runProgram,
    reduceCtorEq]
  simp only [jsOrStr, if_neg hne]
  simp only [hE.1, hE.2.1]
  simp only [hE.2.2]
  cases hJ : env.javaJson ("\x7b" ++ mid ++ "\x7d") <;>
    simp [hJ, execErrorResponse, initResponse, jsOrStr]


/-! ## Supporting definitions for the claims -/

/-- The `{stdout, stderr}` record or the caught `Error` produced by awaiting
`runProgram` on the given outcome. -/
def procOf (o : RunOutcome) : ProcOutput :=
  match runProgram o with
  | .ok (so, se) => .res so se
  | .error e => .err e

/-- Whether any event writes to path `p`. -/
def writesTo (events : List Event) (p : String) : Bool :=
  events.any (fun e =>
    match e with
    | .writeFile q _ => q == p
    | _ => false)

theorem configureExecution_cpp (language code dir : String)
    (hL : jsToLower language = "cpp") :
    configureExecution language code dir =
      .ok (some ⟨".cpp", "g++", dir ++ "/program", [], ""⟩) := by
  unfold configureExecution
  rw [hL]
  simp

theorem configureExecution_python (language code dir : String)
    (hL : jsToLower language = "python") :
    configureExecution language code dir =
      .ok (some ⟨".py", "", "python3", [dir ++ "/program.py"], ""⟩) := by
  unfold configureExecution
  rw [hL]
  simp

/-- Java main code with public class `Main`. -/
def c6code : String := "public class Main {}"

/-- Java test code whose own public class is `OtherTest`. -/
def c6test : String := "public class OtherTest {}"

/-- A test-code payload containing a JSON escape: the four characters
`a`, `\`, `n`, `b`. -/
def c8test : String := "a\\nb"

/-- The response produced by the cpp test path of `envCppSecondFails`. -/
def c5resp : Response :=
  { initResponse with
      state := "passed"
      runtime_error := "Execution failed with code 1" }

/-- A plain-run response with `state = "passed"` (expectedOutput absent). -/
def c5passResp : Response :=
  { initResponse with
      tests_run := 1
      passed := 1
      failed := 0
      state := "passed" }

/-- The TestRunner document for one passing test and no failures. -/
def c7S : String := testRunnerJson 1 "" []

def trC7 : JavaTestResults := ⟨"passed", 1, 1, 0, [], none, none⟩

/-- An environment whose single run prints the TestRunner document surrounded
by noise, and whose `JSON.parse` recognises exactly that document. -/
def envC7 : Env :=
  { env0 with
      runOutcome := fun _ =>
        RunOutcome.close 0 ("Main code written\n" ++ c7S ++ "\ndone") ""
      javaJson := fun s => if s = c7S then some trC7 else none }

/-- The cpp parse of the second run outcome of `envCppSecondFails`. -/
def c10parse : TestSummary :=
  parseCppTestOutput (cppEffText (procOf (envCppSecondFails.runOutcome 1)))
    (outStdout (procOf (envCppSecondFails.runOutcome 1)))
    (outStderr (procOf (envCppSecondFails.runOutcome 1)))

/-! ## The claims -/

/-- C1 (code bug): with `runTests = false` and a successful run whose captured
stdout `"5\n"` equals `expectedOutput`, the claim requires `passed = 1`; the
code compares `response.stdout` — a field the response object never has — so
the result is `failed = 1`, `state = "failed"`, with a FailureDetail whose
`received` *is* the matching stdout. -/
theorem C1_compare_uses_missing_stdout_field :
    (executeCode envEcho "python" "print(5)" "" (some "5\n") false "").1 =
      .ok { initResponse with
              tests_run := 1
              passed := 0
              failed := 1
              state := "failed"
              failure_details := [⟨.num 1, some "5\n", some "5\n",
                "Output did not match expected output", some "5\n", none⟩] } := by
  decide

/-- C2 (code bug): when the 3000 ms deadline fires, the python plain run is
`state = "failed"` and the cpp plain run is `state = "runtime_error"` as the
claim says, but `execution_time_exceeded` stays `false` (the code never sets
it; `initResponse` carries `execution_time_exceeded := false`). -/
theorem C2_timeout_flag_never_set :
    ((executeCode envTimeout "python" "while True: pass" "" (some "x") false "").1 =
      .ok { initResponse with
              state := "failed"
              runtime_error := "Execution timed out" }) ∧
    ((executeCode envTimeout "cpp" "int main(){for(;;);}" "" (some "x") false "").1 =
      .ok { initResponse with
              state := "runtime_error"
              runtime_error := "Execution timed out" }) ∧
    initResponse.execution_time_exceeded = false := by
  decide

/-- C3 (counterexample): for Java code with no `public class` match the
workspace directory is created but `executeCode` throws before its
`try`/`finally`, so no removal ever happens — the trace is exactly
`[mkdir]`. -/
theorem C3_counterexample :
    (executeCode env0 "java" "class X {}" "" none false "").2 =
      [Event.mkdir env0.dir] ∧
    ((executeCode env0 "java" "class X {}" "" none false "").2.countP
      Event.isRemoveDir) = 0 := by
  decide

/-- C3 (amended): whenever `configureExecution` does not throw, the event
trace is exactly `mkdir` first, then body events none of which create or
remove a directory, then one `removeDir`; and the result does not depend on
whether the removal succeeds (`rmOk`). -/
theorem C3_amended (env : Env) (b : Bool) (language code stdin : String)
    (eo : Option String) (rt : Bool) (tc : String)
    (cfgOpt : Option ExecutionConfig)
    (h : configureExecution language code env.dir = .ok cfgOpt) :
    (executeCode env language code stdin eo rt tc).2 =
      Event.mkdir env.dir ::
        ((executeBody env cfgOpt language code stdin eo rt tc).2 ++
          [Event.removeDir env.dir]) ∧
    ((executeBody env cfgOpt language code stdin eo rt tc).2).all noWsEvent =
      true ∧
    executeCode ⟨env.dir, env.compileOutcome, env.runOutcome, env.javaJson,
        env.nullConfigMsg, env.jsonSyntaxErrMsg, b⟩ language code stdin eo rt
        tc =
      executeCode env language code stdin eo rt tc := by
  refine ⟨?_, executeBody_noWs env cfgOpt language code stdin eo rt tc, rfl⟩
  unfold executeCode
  rw [h]

/-- C3 (witness): the amended statement at a concrete python request. -/
theorem C3_amended_witness :
    (executeCode env0 "python" "print(1)" "" none false "").2 =
      Event.mkdir env0.dir ::
        ((executeBody env0 (some ⟨".py", "", "python3",
            [env0.dir ++ "/program.py"], ""⟩) "python" "print(1)" "" none
            false "").2 ++ [Event.removeDir env0.dir]) ∧
    ((executeBody env0 (some ⟨".py", "", "python3",
        [env0.dir ++ "/program.py"], ""⟩) "python" "print(1)" "" none
        false "").2).all noWsEvent = true ∧
    executeCode ⟨env0.dir, env0.compileOutcome, env0.runOutcome, env0.javaJson,
        env0.nullConfigMsg, env0.jsonSyntaxErrMsg, false⟩ "python" "print(1)"
        "" none false "" =
      executeCode env0 "python" "print(1)" "" none false "" :=
  C3_amended env0 false "python" "print(1)" "" none false "" _ (by decide)

/-- C4 (counterexample): a java request whose code has no
`public\s+class\s+(\w+)` match does not produce an orderly
`compile_error` Result: `executeCode`'s promise rejects (the throw happens
before the `try`). -/
theorem C4_counterexample :
    executeCode env0 "java" "class X {}" "" none false "" =
      (.error "Invalid Java code: public class not found.",
       [Event.mkdir env0.dir]) := by
  decide

/-- C4 (amended): for every java request whose code has no match of the
class pattern, `executeCode` rejects with the extraction error and performs
no cleanup; no Result (of any state) is returned. -/
theorem C4_amended (env : Env) (language code stdin : String)
    (eo : Option String) (rt : Bool) (tc : String)
    (hL : jsToLower language = "java")
    (hM : jsMatch rePublicClass code = none) :
    executeCode env language code stdin eo rt tc =
      (.error "Invalid Java code: public class not found.",
       [Event.mkdir env.dir]) := by
  unfold executeCode configureExecution extractClassName
  rw [hL]
  simp [String.reduceEq, hM]

/-- C4 (witness): the amended statement at a concrete input (mixed-case
language name, code with no public class). -/
theorem C4_amended_witness :
    executeCode envTimeout "JAVA" "int x;" "" none false "" =
      (.error "Invalid Java code: public class not found.",
       [Event.mkdir envTimeout.dir]) :=
  C4_amended envTimeout "JAVA" "int x;" "" none false "" (by decide) (by decide)

/-- C5 (counterexample): a cpp test run whose second runner spawn exits
nonzero returns `state = "passed"` together with a nonempty
`runtime_error`, refuting the claimed equivalence. -/
theorem C5_counterexample :
    (executeCode envCppSecondFails "cpp" "int add(int a,int b){return a+b;}"
      "" none true "x").1 = .ok c5resp ∧
    c5resp.state = "passed" ∧ c5resp.failed = 0 ∧
    c5resp.compilation_error = "" ∧ c5resp.runtime_error ≠ "" := by
  decide

/-- C5 (amended): only the forward direction survives, and without the
`runtime_error` conjunct: provided the Java harness JSON itself never pairs
`state = "passed"` with nonzero `failed`, every returned Result with
`state = "passed"` has `failed = 0` and `compilation_error = ""`. -/
theorem C5_amended (env : Env) (language code stdin : String)
    (eo : Option String) (rt : Bool) (tc : String)
    (hJ : ∀ s tr, env.javaJson s = some tr → tr.state = "passed" →
      tr.failed = 0) :
    ∀ r, (executeCode env language code stdin eo rt tc).1 = .ok r →
      r.state = "passed" → r.failed = 0 ∧ r.compilation_error = "" := by
  intro r hr hst
  unfold executeCode at hr
  rcases hcfg : configureExecution language code env.dir with m | cfgOpt <;>
    rw [hcfg] at hr <;> simp at hr
  exact executeBody_passed env cfgOpt language code stdin eo rt tc hJ r hr hst

/-- C5 (witness): the amended statement at a concrete passing plain run. -/
theorem C5_amended_witness :
    c5passResp.failed = 0 ∧ c5passResp.compilation_error = "" :=
  C5_amended env0 "python" "x" "" none false ""
    (fun s tr h => by simp [env0] at h) c5passResp (by decide) (by decide)

/-- C6 (counterexample): with main class `Main` and a test source whose own
public class is `OtherTest`, the test file is written as `MainTest.java`
(never `OtherTest.java`), and `TestRunner.java` is copied with no
substituting write. -/
theorem C6_counterexample :
    extractClassName c6test = .ok "OtherTest" ∧
    (Event.writeFile (env0.dir ++ "/MainTest.java") c6test) ∈
      (executeCode env0 "java" c6code "" none true c6test).2 ∧
    writesTo (executeCode env0 "java" c6code "" none true c6test).2
      (env0.dir ++ "/OtherTest.java") = false ∧
    (Event.copyFile (appDir ++ "/TestRunner.java")
      (env0.dir ++ "/TestRunner.java")) ∈
      (executeCode env0 "java" c6code "" none true c6test).2 ∧
    writesTo (executeCode env0 "java" c6code "" none true c6test).2
      (env0.dir ++ "/TestRunner.java") = false := by
  decide

/-- C6 (amended): the java test file is named after the class extracted from
the MAIN code (`CLASS ++ "Test.java"`), holds the JSON-decoded test source,
and `TestRunner.java` is copied into the workspace verbatim (there is no
substitution step). -/
theorem C6_amended (env : Env) (language code stdin : String)
    (eo : Option String) (testCode d cls : String)
    (hL : jsToLower language = "java")
    (hX : extractClassName code = .ok cls)
    (hT : testCode ≠ "")
    (hD : jsonStringDecode testCode = some d) :
    (Event.writeFile (env.dir ++ "/" ++ cls ++ "Test.java") d) ∈
      (executeCode env language code stdin eo true testCode).2 ∧
    (Event.copyFile (appDir ++ "/TestRunner.java")
      (env.dir ++ "/TestRunner.java")) ∈
      (executeCode env language code stdin eo true testCode).2 := by
  unfold executeCode
  rw [configureExecution_java language code env.dir cls hL hX]
  unfold executeBody
  simp only [handleTestSetup, testRunCommand]
  rw [hL]
  simp only [String.reduceEq, if_false, if_true, reduceIte, hT, hD,
    ne_eq, not_false_iff, and_true, true_and, if_pos, reduceCtorEq]
  repeat' split
  all_goals simp

/-- C6 (witness): the amended statement at the concrete `Main` /
`OtherTest` request. -/
theorem C6_amended_witness :
    (Event.writeFile (env0.dir ++ "/" ++ "Main" ++ "Test.java") c6test) ∈
      (executeCode env0 "java" c6code "" none true c6test).2 ∧
    (Event.copyFile (appDir ++ "/TestRunner.java")
      (env0.dir ++ "/TestRunner.java")) ∈
      (executeCode env0 "java" c6code "" none true c6test).2 :=
  C6_amended env0 "java" c6code "" none c6test c6test "Main"
    (by decide) (by decide) (by decide) (by decide)

/-- C7 (confirmed): when the java harness run succeeds and its stdout embeds
the TestRunner document in noise with no extra `{` before it and no `}`
after it, the first-`{`/last-`}` extraction recovers exactly the document;
its parsed fields (`state`, `tests_run`, `passed`, `failed`,
`failure_details`) are merged into the Result, and if the extracted
substring does not parse as JSON the Result has
`state = "execution_error"`. -/
theorem C7_java_roundtrip (env : Env) (language code cls stdin : String)
    (eo : Option String) (testCode d pre post rawout se : String)
    (rc : Nat) (fails : List JUnitFailure)
    (hL : jsToLower language = "java")
    (hX : extractClassName code = .ok cls)
    (hT : testCode ≠ "")
    (hD : jsonStringDecode testCode = some d)
    (hC : compileCode (env.compileOutcome 0) = .ok ())
    (hR : env.runOutcome 0 =
      .close 0 (pre ++ testRunnerJson rc rawout fails ++ post) se)
    (h1 : '{' ∉ pre.data) (h2 : '}' ∉ post.data) :
    (∀ tr, env.javaJson (testRunnerJson rc rawout fails) = some tr →
      (executeCode env language code stdin eo true testCode).1 =
        .ok ⟨tr.state, tr.tests_run, tr.passed, tr.failed, tr.failure_details,
             "", "", tr.execution_time_exceeded.getD false,
             tr.memory_exceeded.getD false⟩) ∧
    (env.javaJson (testRunnerJson rc rawout fails) = none →
      (executeCode env language code stdin eo true testCode).1 =
        .ok (execErrorResponse "Failed to parse JSON from Java test output")) := by
  have hS : testRunnerJson rc rawout fails =
      "\x7b" ++ testRunnerJsonBody rc rawout fails ++ "\x7d" := rfl
  have hB := executeBody_java env ⟨".java", "javac", "java",
      ["-cp", env.dir, cls], cls⟩ language code stdin eo testCode d pre
      (testRunnerJsonBody rc rawout fails) post se hL hT hD hC
      (by rw [hR, hS]) h1 h2
  rw [← hS] at hB
  unfold executeCode
  rw [configureExecution_java language code env.dir cls hL hX]
  constructor
  · intro tr htr
    simp only [hB, htr]
  · intro htr
    simp only [hB, htr]

/-- C7 (witness): the round-trip at a concrete one-test document embedded in
noise. -/
theorem C7_witness :
    (executeCode envC7 "java" c6code "" none true c6test).1 =
      .ok ⟨"passed", 1, 1, 0, [], "", "", false, false⟩ :=
  (C7_java_roundtrip envC7 "java" c6code "Main" "" none c6test c6test
      "Main code written\n" "\ndone" "" "" 1 []
      (by decide) (by decide) (by decide) (by decide) (by decide) rfl
      (by decide) (by decide)).1 trC7 (by decide)

/-- C8 (counterexample): a python test payload containing the JSON escape
`\n` is not written verbatim: the file receives the decoded string (with a
real newline), which differs from `testCode`. -/
theorem C8_counterexample :
    jsonStringDecode c8test = some "a\nb" ∧
    (Event.writeFile (env0.dir ++ "/test_program.py") "a\nb") ∈
      (executeCode env0 "python" "def f(): pass" "" none true c8test).2 ∧
    (Event.writeFile (env0.dir ++ "/test_program.py") c8test) ∉
      (executeCode env0 "python" "def f(): pass" "" none true c8test).2 ∧
    "a\nb" ≠ c8test := by
  decide

/-- C8 (amended): the python test source is first decoded as the body of a
JSON string literal; the decoded string is what is written to
`test_program.py`, and no compile step is ever spawned on the python test
path. -/
theorem C8_amended (env : Env) (language code stdin : String)
    (eo : Option String) (testCode d : String)
    (hL : jsToLower language = "python")
    (hT : testCode ≠ "")
    (hD : jsonStringDecode testCode = some d) :
    (Event.writeFile (env.dir ++ "/test_program.py") d) ∈
      (executeCode env language code stdin eo true testCode).2 ∧
    ((executeCode env language code stdin eo true testCode).2.all
      (fun e => !e.isSpawnCompile)) = true := by
  unfold executeCode
  rw [configureExecution_python language code env.dir hL]
  unfold executeBody
  simp only [handleTestSetup, testRunCommand]
  rw [hL]
  simp only [String.reduceEq, if_false, if_true, reduceIte, hT, hD,
    ne_eq, not_false_iff, and_true, true_and, if_pos, reduceCtorEq]
  repeat' split
  all_goals simp [Event.isSpawnCompile]

/-- C8 (witness): the amended statement at the concrete escaped payload. -/
theorem C8_amended_witness :
    (Event.writeFile (env0.dir ++ "/test_program.py") "a\nb") ∈
      (executeCode env0 "python" "def f(): pass" "" none true c8test).2 ∧
    ((executeCode env0 "python" "def f(): pass" "" none true c8test).2.all
      (fun e => !e.isSpawnCompile)) = true :=
  C8_amended env0 "python" "def f(): pass" "" none c8test "a\nb"
    (by decide) (by decide) (by decide)

/-- C9 (confirmed): both parsers are total functions by construction; when no
totals line matches all three counts are zero, and when no per-failure block
parses, `failure_details` is empty while `failed` still equals the number
reported by the totals regexes. -/
theorem C9_parsers_total :
    (∀ output stdoutS stderrS : String,
      jsMatch rePyPassFail output = none →
      jsMatch rePySinglePass output = none →
      jsMatch rePySingleFail output = none →
      (parsePytestOutput output stdoutS stderrS).tests_run = 0 ∧
      (parsePytestOutput output stdoutS stderrS).passed = 0 ∧
      (parsePytestOutput output stdoutS stderrS).failed = 0) ∧
    (∀ output stdoutS stderrS : String,
      pytestFailureMatches output = [] →
      (parsePytestOutput output stdoutS stderrS).failure_details = [] ∧
      (parsePytestOutput output stdoutS stderrS).failed =
        ((pytestTotals output).2.2 : Int)) ∧
    (∀ output stdoutS stderrS : String,
      jsMatch reCxxTotal output = none →
      jsMatch reCxxFailed output = none →
      (parseCppTestOutput output stdoutS stderrS).tests_run = 0 ∧
      (parseCppTestOutput output stdoutS stderrS).passed = 0 ∧
      (parseCppTestOutput output stdoutS stderrS).failed = 0) ∧
    (∀ output stdoutS stderrS : String,
      cppFailureMatches output = [] →
      (parseCppTestOutput output stdoutS stderrS).failure_details = [] ∧
      (parseCppTestOutput output stdoutS stderrS).failed =
        ((cppTotals output).2 : Int)) := by
  refine ⟨?_, ?_, ?_, ?_⟩ <;> intro output so se
  · intro h1 h2 h3
    simp [parsePytestOutput, pytestTotals, h1, h2, h3]
  · intro h
    simp [parsePytestOutput, pytestTotals, h]
  · intro h1 h2
    simp [parseCppTestOutput, cppTotals, h1, h2]
  · intro h
    simp [parseCppTestOutput, cppTotals, h]

/-- C9 (witness): the four conjuncts at concrete transcripts — unrecognized
text, and totals lines that report failures without parseable blocks. -/
theorem C9_witness :
    ((parsePytestOutput "xyz" "" "").tests_run = 0 ∧
     (parsePytestOutput "xyz" "" "").passed = 0 ∧
     (parsePytestOutput "xyz" "" "").failed = 0) ∧
    ((parsePytestOutput "3 failed" "" "").failure_details = [] ∧
     (parsePytestOutput "3 failed" "" "").failed =
       ((pytestTotals "3 failed").2.2 : Int)) ∧
    ((parseCppTestOutput "xyz" "" "").tests_run = 0 ∧
     (parseCppTestOutput "xyz" "" "").passed = 0 ∧
     (parseCppTestOutput "xyz" "" "").failed = 0) ∧
    ((parseCppTestOutput "Failed 2 and Skipped 0 of 5 tests" "" "").failure_details = [] ∧
     (parseCppTestOutput "Failed 2 and Skipped 0 of 5 tests" "" "").failed =
       ((cppTotals "Failed 2 and Skipped 0 of 5 tests").2 : Int)) :=
  ⟨C9_parsers_total.1 "xyz" "" "" (by decide) (by decide) (by decide),
   C9_parsers_total.2.1 "3 failed" "" "" (by decide),
   C9_parsers_total.2.2.1 "xyz" "" "" (by decide) (by decide),
   C9_parsers_total.2.2.2 "Failed 2 and Skipped 0 of 5 tests" "" "" (by decide)⟩

/-- C10 (confirmed): a cpp test request that reaches the run stage spawns the
compiled runner twice, feeding the request's stdin to each spawn, and the
Result's test fields all come from parsing the second execution's output. -/
theorem C10_cpp_double_run (env : Env) (language code stdin : String)
    (eo : Option String) (testCode d : String)
    (hL : jsToLower language = "cpp") (hT : testCode ≠ "")
    (hD : jsonStringDecode testCode = some d)
    (hC0 : compileCode (env.compileOutcome 0) = .ok ())
    (hC1 : compileCode (env.compileOutcome 1) = .ok ()) :
    ((executeCode env language code stdin eo true testCode).2.filter
        Event.isSpawnRun =
      [Event.spawnRun (env.dir ++ "/runner") [] stdin,
       Event.spawnRun (env.dir ++ "/runner") [] stdin]) ∧
    (∀ r, (executeCode env language code stdin eo true testCode).1 = .ok r →
      r.tests_run = (parseCppTestOutput (cppEffText (procOf (env.runOutcome 1)))
        (outStdout (procOf (env.runOutcome 1)))
        (outStderr (procOf (env.runOutcome 1)))).tests_run ∧
      r.passed = (parseCppTestOutput (cppEffText (procOf (env.runOutcome 1)))
        (outStdout (procOf (env.runOutcome 1)))
        (outStderr (procOf (env.runOutcome 1)))).passed ∧
      r.failed = (parseCppTestOutput (cppEffText (procOf (env.runOutcome 1)))
        (outStdout (procOf (env.runOutcome 1)))
        (outStderr (procOf (env.runOutcome 1)))).failed ∧
      r.failure_details = (parseCppTestOutput
        (cppEffText (procOf (env.runOutcome 1)))
        (outStdout (procOf (env.runOutcome 1)))
        (outStderr (procOf (env.runOutcome 1)))).failure_details) := by
  unfold executeCode
  rw [configureExecution_cpp language code env.dir hL]
  unfold executeBody
  simp only [handleTestSetup, testRunCommand]
  rw [hL]
  simp only [String.reduceEq, if_false, if_true, reduceIte, hT, hD, hC0, hC1,
    ne_eq, not_false_iff, and_true, true_and, if_pos, reduceCtorEq]
  unfold procOf
  cases h0 : runProgram (env.runOutcome 0) <;>
    cases h1 : runProgram (env.runOutcome 1) <;>
    simp [Event.isSpawnRun, List.filter]

/-- C10 (witness): the double spawn and second-output parse at the concrete
environment whose second run exits nonzero. -/
theorem C10_witness :
    ((executeCode envCppSecondFails "cpp" "int a;" "" none true "x").2.filter
        Event.isSpawnRun =
      [Event.spawnRun (envCppSecondFails.dir ++ "/runner") [] "",
       Event.spawnRun (envCppSecondFails.dir ++ "/runner") [] ""]) ∧
    (c5resp.tests_run = c10parse.tests_run ∧
     c5resp.passed = c10parse.passed ∧
     c5resp.failed = c10parse.failed ∧
     c5resp.failure_details = c10parse.failure_details) :=
  ⟨(C10_cpp_double_run envCppSecondFails "cpp" "int a;" "" none "x" "x"
      (by decide) (by decide) (by decide) (by decide) (by decide)).1,
   (C10_cpp_double_run envCppSecondFails "cpp" "int a;" "" none "x" "x"
      (by decide) (by decide) (by decide) (by decide) (by decide)).2 c5resp
      (by decide)⟩

end Codeval
